import Mathlib

/-!
Shallow embedding of the Pinocchio-Vault Solana program
(src/lib.rs, src/instructions/deposit.rs, src/instructions/withdraw.rs).

Machine bytes are modelled as `Nat` (every byte of a real request is < 256);
a public key is a byte list.  The external primitive
`pinocchio::pubkey::find_program_address` is not part of this repository, so
every operation is parameterised over it (`Fpa`); the claims under study hold
for every such function.  Each early-return site of the Rust code is labelled
by a distinct `VaultError` constructor; `VaultError.toProgramError` maps each
site to the exact `ProgramError` value the Rust code returns there, so that
composing the two reproduces the source behaviour while keeping the failure
cause observable.
-/

namespace PinocchioVault

/-- A public key: 32 bytes in the real program, modelled as a byte list. -/
abbrev Pubkey := List Nat

/-- The system program id (`pinocchio_system::ID`): 32 zero bytes. -/
def systemProgramID : Pubkey := List.replicate 32 0

/-- The program id `crate::ID`, the hardcoded constant from src/lib.rs. -/
def ID : Pubkey := [
  0x0f, 0x1e, 0x6b, 0x14, 0x21, 0xc0, 0x4a, 0x07,
  0x04, 0x31, 0x26, 0x5c, 0x19, 0xc5, 0xbb, 0xee,
  0x19, 0x92, 0xba, 0xe8, 0xaf, 0xd1, 0xcd, 0x07,
  0x8e, 0xf8, 0xaf, 0x70, 0x47, 0xdc, 0x11, 0xf7]

/-- The ASCII bytes of the namespace tag literal b"vault". -/
def vaultTag : List Nat := [118, 97, 117, 108, 116]

/-- The seed sequence handed to address derivation for a given owner key:
`[b"vault", owner.key()]`, as in both try_from functions. -/
def derivationSeeds (ownerKey : Pubkey) : List (List Nat) := [vaultTag, ownerKey]

/-- Model of `pinocchio::account_info::AccountInfo`, keeping the fields the
program reads: key, owning program, lamport balance, signer flag. -/
structure AccountInfo where
  key : Pubkey
  owner : Pubkey
  lamports : Nat
  isSigner : Bool
deriving DecidableEq

/-- The `ProgramError` values the program actually returns. -/
inductive ProgramError
  | notEnoughAccountKeys
  | invalidAccountOwner
  | invalidAccountData
  | invalidInstructionData
deriving DecidableEq

/-- One constructor per early-return site of the source, naming the failure
cause of the error-handling taxonomy; the spec groups `notEnoughAccountKeys`
and `wrongPayloadLength` together as MalformedRequest. -/
inductive VaultError
  | notEnoughAccountKeys
  | unauthorized
  | invalidOwnership
  | alreadyInitialized
  | addressMismatch
  | wrongPayloadLength
  | invalidAmount
  | unknownOperation
deriving DecidableEq

/-- The `ProgramError` value the source returns at each failure site. -/
def VaultError.toProgramError : VaultError → ProgramError
  | .notEnoughAccountKeys => .notEnoughAccountKeys
  | .unauthorized => .invalidAccountOwner
  | .invalidOwnership => .invalidAccountOwner
  | .alreadyInitialized => .invalidAccountData
  | .addressMismatch => .invalidAccountOwner
  | .wrongPayloadLength => .invalidInstructionData
  | .invalidAmount => .invalidInstructionData
  | .unknownOperation => .invalidInstructionData

/-- The external address-derivation primitive
`find_program_address(seeds, program_id) -> (Pubkey, bump)`.  It lives in the
pinocchio dependency, outside this repository, so the development is
parameterised over it. -/
abbrev Fpa := List (List Nat) → Pubkey → Pubkey × Nat

/-- Model of `pinocchio_system::instructions::Transfer`: source account,
destination account, lamport amount. -/
structure Transfer where
  fromAcc : AccountInfo
  toAcc : AccountInfo
  lamports : Nat
deriving DecidableEq

/-- The one outbound call a successful request makes: an unsigned transfer
(`invoke`) or a seed-signed transfer (`invoke_signed`). -/
inductive Invocation
  | transfer (t : Transfer)
  | transferSigned (t : Transfer) (seeds : List (List Nat))
deriving DecidableEq

/-- Effect of the system transfer primitive on a balance map: debit the
source by the amount, credit the destination by the amount. -/
def applyTransfer (balances : Pubkey → Nat) (t : Transfer) : Pubkey → Nat :=
  fun k =>
    let afterDebit := fun j => if j = t.fromAcc.key then balances j - t.lamports else balances j
    if k = t.toAcc.key then afterDebit k + t.lamports else afterDebit k

/-- Validated deposit accounts (owner, vault), as in deposit.rs. -/
structure DepositAccounts where
  owner : AccountInfo
  vault : AccountInfo
deriving DecidableEq

/-- `DepositAccounts::try_from` (deposit.rs lines 17-44): require exactly
three accounts, then check in order the owner signer flag, the vault owning
program, the vault balance being zero, and the vault key against the freshly
derived expected address. -/
def DepositAccounts.tryFrom (fpa : Fpa) (accounts : List AccountInfo) :
    Except VaultError DepositAccounts :=
  match accounts with
  | [owner, vault, _] =>
    if owner.isSigner = false then .error .unauthorized
    else if vault.owner ≠ systemProgramID then .error .invalidOwnership
    else if vault.lamports ≠ 0 then .error .alreadyInitialized
    else
      let p := fpa (derivationSeeds owner.key) ID
      if vault.key ≠ p.1 then .error .addressMismatch
      else .ok ⟨owner, vault⟩
  | _ => .error .notEnoughAccountKeys

/-- Parsed deposit payload (deposit.rs lines 48-50). -/
structure DepositInstructionData where
  amount : Nat
deriving DecidableEq

/-- `u64::from_le_bytes` on a byte list: little-endian base-256 value. -/
def u64FromLeBytes (data : List Nat) : Nat :=
  data.foldr (fun b acc => acc * 256 + b) 0

/-- `DepositInstructionData::try_from` (deposit.rs lines 52-71): the payload
must be exactly 8 bytes and decode to a nonzero little-endian u64. -/
def DepositInstructionData.tryFrom (data : List Nat) :
    Except VaultError DepositInstructionData :=
  if data.length ≠ 8 then .error .wrongPayloadLength
  else
    let amount := u64FromLeBytes data
    if amount = 0 then .error .invalidAmount
    else .ok ⟨amount⟩

/-- The Deposit instruction: validated accounts plus parsed payload. -/
structure Deposit where
  accounts : DepositAccounts
  instruction_datas : DepositInstructionData
deriving DecidableEq

/-- `Deposit::try_from((data, accounts))` (deposit.rs lines 79-92): validate
the accounts first, then the payload. -/
def Deposit.tryFrom (fpa : Fpa) (data : List Nat) (accounts : List AccountInfo) :
    Except VaultError Deposit := do
  let a ← DepositAccounts.tryFrom fpa accounts
  let d ← DepositInstructionData.tryFrom data
  .ok ⟨a, d⟩

/-- `Deposit::process` (deposit.rs lines 97-107): one unsigned transfer of
the decoded amount from the owner to the vault. -/
def Deposit.process (s : Deposit) : Invocation :=
  .transfer ⟨s.accounts.owner, s.accounts.vault, s.instruction_datas.amount⟩

/-- Validated withdraw accounts (withdraw.rs lines 8-12): owner, vault and
the one-byte bump seed array found during derivation. -/
structure WithdrawAccounts where
  owner : AccountInfo
  vault : AccountInfo
  bumps : List Nat
deriving DecidableEq

/-- `WithdrawAccounts::try_from` (withdraw.rs lines 18-40): require exactly
three accounts, then check the owner signer flag, the vault owning program,
and the vault key against the freshly derived address; keep the bump. -/
def WithdrawAccounts.tryFrom (fpa : Fpa) (accounts : List AccountInfo) :
    Except VaultError WithdrawAccounts :=
  match accounts with
  | [owner, vault, _system_program] =>
    if owner.isSigner = false then .error .unauthorized
    else if vault.owner ≠ systemProgramID then .error .invalidOwnership
    else
      let p := fpa (derivationSeeds owner.key) ID
      if p.1 ≠ vault.key then .error .addressMismatch
      else .ok ⟨owner, vault, [p.2]⟩
  | _ => .error .notEnoughAccountKeys

/-- The Withdraw instruction: validated accounts. -/
structure Withdraw where
  accounts : WithdrawAccounts
deriving DecidableEq

/-- `Withdraw::try_from(accounts)` (withdraw.rs lines 48-57). -/
def Withdraw.tryFrom (fpa : Fpa) (accounts : List AccountInfo) :
    Except VaultError Withdraw := do
  let a ← WithdrawAccounts.tryFrom fpa accounts
  .ok ⟨a⟩

/-- `Withdraw::process` (withdraw.rs lines 62-80): one transfer of the whole
current vault balance from the vault to the owner, signed with the seed
sequence {b"vault", owner key bytes, bump bytes}. -/
def Withdraw.process (w : Withdraw) : Invocation :=
  .transferSigned
    ⟨w.accounts.vault, w.accounts.owner, w.accounts.vault.lamports⟩
    [vaultTag, w.accounts.owner.key, w.accounts.bumps]

/-- `process_instruction` (lib.rs lines 31-44): dispatch on the leading
byte, 0 for Deposit and 1 for Withdraw; anything else, including an empty
request, is invalid instruction data. -/
def process_instruction (fpa : Fpa) (accounts : List AccountInfo)
    (instruction_data : List Nat) : Except VaultError Invocation :=
  match instruction_data with
  | 0 :: data => (Deposit.tryFrom fpa data accounts).map Deposit.process
  | 1 :: _ => (Withdraw.tryFrom fpa accounts).map Withdraw.process
  | _ => .error .unknownOperation

/-- The entry point as the caller sees it: the failure cause projected onto
the `ProgramError` value the source returns. -/
def process_instruction_pe (fpa : Fpa) (accounts : List AccountInfo)
    (instruction_data : List Nat) : Except ProgramError Invocation :=
  (process_instruction fpa accounts instruction_data).mapError VaultError.toProgramError

/-! Concrete fixtures used by witnesses and counterexamples. -/

/-- A concrete, deterministic stand-in for the derivation primitive. -/
def fpa0 : Fpa := fun seeds _ => (seeds.flatten, 254)

/-- A concrete owner key. -/
def ownerKey0 : Pubkey := List.replicate 32 7

/-- An owner account that signed the request. -/
def ownerOk : AccountInfo := ⟨ownerKey0, systemProgramID, 100, true⟩

/-- The same owner account without the signer flag. -/
def ownerNoSig : AccountInfo := ⟨ownerKey0, systemProgramID, 100, false⟩

/-- The derived vault address for `ownerOk` under `fpa0`. -/
def vaultKey0 : Pubkey := (fpa0 (derivationSeeds ownerKey0) ID).1

/-- An empty system-owned vault at the derived address. -/
def vaultOk : AccountInfo := ⟨vaultKey0, systemProgramID, 0, false⟩

/-- A funded system-owned vault at the derived address. -/
def vaultFunded : AccountInfo := ⟨vaultKey0, systemProgramID, 500, false⟩

/-- A system-owned empty account at a wrong address. -/
def vaultWrongKey : AccountInfo := ⟨List.replicate 32 9, systemProgramID, 0, false⟩

/-- The genuine system program account in the third position. -/
def sysAcc : AccountInfo := ⟨systemProgramID, systemProgramID, 1, false⟩

/-- An account in the third position whose key is not the system authority. -/
def bogusSys : AccountInfo := ⟨List.replicate 32 5, systemProgramID, 1, false⟩

/-- A concrete balance map agreeing with the fixture accounts. -/
def balances0 : Pubkey → Nat :=
  fun k => if k = vaultKey0 then 500 else if k = ownerKey0 then 100 else 0

/-! Helper lemmas shared by several results. -/

/-- If the Withdraw instruction validates, so do its accounts. -/
theorem wd_tryFrom_ok (fpa : Fpa) (accounts : List AccountInfo) (w : Withdraw)
    (h : Withdraw.tryFrom fpa accounts = .ok w) :
    WithdrawAccounts.tryFrom fpa accounts = .ok w.accounts := by
  revert h
  unfold Withdraw.tryFrom
  cases hh : WithdrawAccounts.tryFrom fpa accounts <;> intro h <;>
    simp [bind, Except.bind, hh] at h ⊢
  cases h
  rfl

/-- Validated withdraw accounts carry the bump byte of the fresh derivation
for their own owner key. -/
theorem wdAccounts_ok_shape (fpa : Fpa) (accounts : List AccountInfo) (a : WithdrawAccounts)
    (h : WithdrawAccounts.tryFrom fpa accounts = .ok a) :
    a.bumps = [(fpa (derivationSeeds a.owner.key) ID).2] := by
  rcases accounts with _ | ⟨o, _ | ⟨v, _ | ⟨t, _ | ⟨e, rest⟩⟩⟩⟩ <;>
    simp [WithdrawAccounts.tryFrom] at h
  split_ifs at h <;> simp at h
  subst h
  rfl

/-- Validated withdraw accounts are the first two supplied accounts. -/
theorem wdAccounts_ok_eq (fpa : Fpa) (owner vault third : AccountInfo) (a : WithdrawAccounts)
    (h : WithdrawAccounts.tryFrom fpa [owner, vault, third] = .ok a) :
    a.owner = owner ∧ a.vault = vault := by
  simp [WithdrawAccounts.tryFrom] at h
  split_ifs at h <;> simp at h
  subst h
  exact ⟨rfl, rfl⟩

/-! Claim theorems. -/

/-- C1: For every Deposit request, account validation performs exactly four
checks in this order and fails with the first violated one: Unauthorized if
the owner did not sign; otherwise InvalidOwnership if the vault is not
controlled by the system-transfer authority; otherwise AlreadyInitialized if
the vault balance is nonzero; otherwise AddressMismatch if the vault key is
not the freshly derived expected address; validation succeeds when all four
pass. -/
theorem deposit_account_validation_order (fpa : Fpa) (owner vault third : AccountInfo) :
    (DepositAccounts.tryFrom fpa [owner, vault, third] = .error .unauthorized ↔
      owner.isSigner = false) ∧
    (DepositAccounts.tryFrom fpa [owner, vault, third] = .error .invalidOwnership ↔
      owner.isSigner = true ∧ vault.owner ≠ systemProgramID) ∧
    (DepositAccounts.tryFrom fpa [owner, vault, third] = .error .alreadyInitialized ↔
      owner.isSigner = true ∧ vault.owner = systemProgramID ∧ vault.lamports ≠ 0) ∧
    (DepositAccounts.tryFrom fpa [owner, vault, third] = .error .addressMismatch ↔
      owner.isSigner = true ∧ vault.owner = systemProgramID ∧ vault.lamports = 0 ∧
        vault.key ≠ (fpa (derivationSeeds owner.key) ID).1) ∧
    (DepositAccounts.tryFrom fpa [owner, vault, third] = .ok ⟨owner, vault⟩ ↔
      owner.isSigner = true ∧ vault.owner = systemProgramID ∧ vault.lamports = 0 ∧
        vault.key = (fpa (derivationSeeds owner.key) ID).1) := by
  by_cases hs : owner.isSigner = false <;>
  by_cases ho : vault.owner = systemProgramID <;>
  by_cases hl : vault.lamports = 0 <;>
  by_cases hk : vault.key = (fpa (derivationSeeds owner.key) ID).1 <;>
  simp [DepositAccounts.tryFrom, hs, ho, hl, hk, Bool.not_eq_false] at *

/-- Evaluates C1 at a concrete request whose owner did not sign. -/
theorem deposit_account_validation_order_witness :
    DepositAccounts.tryFrom fpa0 [ownerNoSig, vaultOk, sysAcc] = .error .unauthorized :=
  ((deposit_account_validation_order fpa0 ownerNoSig vaultOk sysAcc).1).mpr rfl

/-- C2: For every Withdraw request, account validation performs the same
signer and vault-ownership checks as Deposit and the mandatory address check
against the freshly derived expected address, but imposes no zero-balance
requirement (it never fails with AlreadyInitialized, and success does not
depend on the vault balance); on success it returns the bump byte found
during derivation. -/
theorem withdraw_account_validation (fpa : Fpa) (owner vault third : AccountInfo) :
    (WithdrawAccounts.tryFrom fpa [owner, vault, third] = .error .unauthorized ↔
      owner.isSigner = false) ∧
    (WithdrawAccounts.tryFrom fpa [owner, vault, third] = .error .invalidOwnership ↔
      owner.isSigner = true ∧ vault.owner ≠ systemProgramID) ∧
    (WithdrawAccounts.tryFrom fpa [owner, vault, third] = .error .addressMismatch ↔
      owner.isSigner = true ∧ vault.owner = systemProgramID ∧
        (fpa (derivationSeeds owner.key) ID).1 ≠ vault.key) ∧
    (WithdrawAccounts.tryFrom fpa [owner, vault, third] ≠ .error .alreadyInitialized) ∧
    (WithdrawAccounts.tryFrom fpa [owner, vault, third] =
        .ok ⟨owner, vault, [(fpa (derivationSeeds owner.key) ID).2]⟩ ↔
      owner.isSigner = true ∧ vault.owner = systemProgramID ∧
        (fpa (derivationSeeds owner.key) ID).1 = vault.key) := by
  by_cases hs : owner.isSigner = false <;>
  by_cases ho : vault.owner = systemProgramID <;>
  by_cases hk : (fpa (derivationSeeds owner.key) ID).1 = vault.key <;>
  simp [WithdrawAccounts.tryFrom, hs, ho, hk, Bool.not_eq_false] at *

/-- Evaluates C2 at a concrete funded vault: validation succeeds and returns
the bump even though the balance is nonzero. -/
theorem withdraw_account_validation_witness :
    WithdrawAccounts.tryFrom fpa0 [ownerOk, vaultFunded, sysAcc]
      = .ok ⟨ownerOk, vaultFunded, [254]⟩ :=
  ((withdraw_account_validation fpa0 ownerOk vaultFunded sysAcc).2.2.2.2).mpr
    ⟨rfl, rfl, by decide⟩

/-- C3: Every Withdraw that passes validation invokes the signed transfer
with exactly the seed sequence used at derivation time extended by the bump:
{the ASCII tag b"vault", the owner key bytes, the single bump byte returned
by validation}, in that order. -/
theorem withdraw_signing_seeds (fpa : Fpa) (accounts : List AccountInfo) (w : Withdraw)
    (h : Withdraw.tryFrom fpa accounts = .ok w) :
    Withdraw.process w =
      .transferSigned
        ⟨w.accounts.vault, w.accounts.owner, w.accounts.vault.lamports⟩
        (derivationSeeds w.accounts.owner.key ++
          [[(fpa (derivationSeeds w.accounts.owner.key) ID).2]]) := by
  have ha : WithdrawAccounts.tryFrom fpa accounts = .ok w.accounts :=
    wd_tryFrom_ok fpa accounts w h
  have hb := wdAccounts_ok_shape fpa accounts w.accounts ha
  simp [Withdraw.process, hb, derivationSeeds]

/-- Evaluates C3 at a concrete validated withdraw. -/
theorem withdraw_signing_seeds_witness :
    Withdraw.tryFrom fpa0 [ownerOk, vaultFunded, sysAcc] = .ok ⟨⟨ownerOk, vaultFunded, [254]⟩⟩ ∧
    Withdraw.process ⟨⟨ownerOk, vaultFunded, [254]⟩⟩ =
      .transferSigned ⟨vaultFunded, ownerOk, vaultFunded.lamports⟩
        (derivationSeeds ownerKey0 ++ [[254]]) :=
  ⟨rfl, withdraw_signing_seeds fpa0 [ownerOk, vaultFunded, sysAcc]
    ⟨⟨ownerOk, vaultFunded, [254]⟩⟩ rfl⟩

/-- C4: Every Withdraw that passes validation on a vault with balance B
performs one signed transfer of exactly B from the vault to the owner, read
at transfer time, after which the vault balance is 0 and the owner balance
grew by exactly B; no partial amount is transferred.  The vault key differs
from the owner key because a program-derived address is never a signing
key. -/
theorem withdraw_full_balance (fpa : Fpa) (owner vault third : AccountInfo) (w : Withdraw)
    (balances : Pubkey → Nat)
    (hok : Withdraw.tryFrom fpa [owner, vault, third] = .ok w)
    (hbal : balances vault.key = vault.lamports)
    (hne : vault.key ≠ owner.key) :
    ∃ t seeds, Withdraw.process w = .transferSigned t seeds ∧
      t.fromAcc = vault ∧ t.toAcc = owner ∧ t.lamports = vault.lamports ∧
      applyTransfer balances t vault.key = 0 ∧
      applyTransfer balances t owner.key = balances owner.key + vault.lamports := by
  obtain ⟨ho, hv⟩ := wdAccounts_ok_eq fpa owner vault third w.accounts
    (wd_tryFrom_ok fpa [owner, vault, third] w hok)
  refine ⟨⟨vault, owner, vault.lamports⟩, [vaultTag, owner.key, w.accounts.bumps],
    ?_, rfl, rfl, rfl, ?_, ?_⟩
  · simp [Withdraw.process, ho, hv]
  · simp [applyTransfer, hne, hbal, Ne.symm hne]
  · simp [applyTransfer, hne, hbal, Ne.symm hne]

/-- Evaluates C4 at a concrete funded vault with a concrete balance map. -/
theorem withdraw_full_balance_witness :
    ∃ t seeds, Withdraw.process ⟨⟨ownerOk, vaultFunded, [254]⟩⟩ = .transferSigned t seeds ∧
      t.fromAcc = vaultFunded ∧ t.toAcc = ownerOk ∧ t.lamports = vaultFunded.lamports ∧
      applyTransfer balances0 t vaultFunded.key = 0 ∧
      applyTransfer balances0 t ownerOk.key = balances0 ownerOk.key + vaultFunded.lamports :=
  withdraw_full_balance fpa0 ownerOk vaultFunded sysAcc ⟨⟨ownerOk, vaultFunded, [254]⟩⟩
    balances0 rfl (by decide) (by decide)

/-- C5: Deposit payload validation succeeds exactly when the payload is 8
bytes and its little-endian u64 decoding is strictly positive; any other
length fails at the malformed-payload site, the 8-byte zero payload fails
with InvalidAmount, and on success the parsed amount equals the decoded
value. -/
theorem deposit_payload_validation (data : List Nat) :
    (DepositInstructionData.tryFrom data = .ok ⟨u64FromLeBytes data⟩ ↔
      data.length = 8 ∧ 0 < u64FromLeBytes data) ∧
    (data.length ≠ 8 → DepositInstructionData.tryFrom data = .error .wrongPayloadLength) ∧
    (data.length = 8 → u64FromLeBytes data = 0 →
      DepositInstructionData.tryFrom data = .error .invalidAmount) ∧
    (∀ d, DepositInstructionData.tryFrom data = .ok d → d.amount = u64FromLeBytes data) := by
  by_cases hl : data.length = 8 <;> by_cases hz : u64FromLeBytes data = 0 <;>
    simp [DepositInstructionData.tryFrom, hl, hz, Nat.pos_of_ne_zero]

/-- Evaluates C5 at the zero payload, a short payload, and a valid payload. -/
theorem deposit_payload_validation_witness :
    DepositInstructionData.tryFrom (List.replicate 8 0) = .error .invalidAmount ∧
    DepositInstructionData.tryFrom [1, 0] = .error .wrongPayloadLength ∧
    DepositInstructionData.tryFrom [1, 0, 0, 0, 0, 0, 0, 0] = .ok ⟨1⟩ :=
  ⟨(deposit_payload_validation (List.replicate 8 0)).2.2.1 (by decide) (by decide),
   (deposit_payload_validation [1, 0]).2.1 (by decide),
   (deposit_payload_validation [1, 0, 0, 0, 0, 0, 0, 0]).1.mpr ⟨by decide, by decide⟩⟩

/-- C6 counterexample: a Deposit failing the signer check and a Deposit
failing the address check reach the caller as the same ProgramError value,
although their failure causes differ, so the seven taxonomy causes are not
pairwise distinct at the caller. -/
theorem error_values_collapse_cex :
    process_instruction fpa0 [ownerNoSig, vaultOk, sysAcc] (0 :: [1, 0, 0, 0, 0, 0, 0, 0])
      = .error .unauthorized ∧
    process_instruction fpa0 [ownerOk, vaultWrongKey, sysAcc] (0 :: [1, 0, 0, 0, 0, 0, 0, 0])
      = .error .addressMismatch ∧
    process_instruction_pe fpa0 [ownerNoSig, vaultOk, sysAcc] (0 :: [1, 0, 0, 0, 0, 0, 0, 0])
      = process_instruction_pe fpa0 [ownerOk, vaultWrongKey, sysAcc]
          (0 :: [1, 0, 0, 0, 0, 0, 0, 0]) :=
  ⟨rfl, rfl, rfl⟩

/-- C6 amended: the failure causes are surfaced as only four distinct
ProgramError values: missing accounts surface NotEnoughAccountKeys; the
signer, vault-ownership and address-mismatch failures all surface
InvalidAccountOwner; a nonzero balance at deposit surfaces
InvalidAccountData; wrong payload length, zero amount and unknown opcode all
surface InvalidInstructionData. -/
theorem error_value_mapping :
    VaultError.toProgramError .notEnoughAccountKeys = .notEnoughAccountKeys ∧
    VaultError.toProgramError .unauthorized = .invalidAccountOwner ∧
    VaultError.toProgramError .invalidOwnership = .invalidAccountOwner ∧
    VaultError.toProgramError .addressMismatch = .invalidAccountOwner ∧
    VaultError.toProgramError .alreadyInitialized = .invalidAccountData ∧
    VaultError.toProgramError .wrongPayloadLength = .invalidInstructionData ∧
    VaultError.toProgramError .invalidAmount = .invalidInstructionData ∧
    VaultError.toProgramError .unknownOperation = .invalidInstructionData :=
  ⟨rfl, rfl, rfl, rfl, rfl, rfl, rfl, rfl⟩

/-- C7: A request whose leading opcode byte is neither 0 nor 1 fails with
the unknown-operation error for every account list, so no account influences
or is affected by the outcome. -/
theorem unknown_opcode_rejected (fpa : Fpa) (accounts : List AccountInfo)
    (data : List Nat) (b : Nat) (h0 : b ≠ 0) (h1 : b ≠ 1) :
    process_instruction fpa accounts (b :: data) = .error .unknownOperation ∧
    process_instruction_pe fpa accounts (b :: data) = .error .invalidInstructionData := by
  match b with
  | 0 => exact absurd rfl h0
  | 1 => exact absurd rfl h1
  | b + 2 => exact ⟨rfl, rfl⟩

/-- Evaluates C7 at opcode byte 2. -/
theorem unknown_opcode_rejected_witness :
    process_instruction fpa0 [ownerOk, vaultOk, sysAcc] (2 :: []) = .error .unknownOperation ∧
    process_instruction_pe fpa0 [ownerOk, vaultOk, sysAcc] (2 :: [])
      = .error .invalidInstructionData :=
  unknown_opcode_rejected fpa0 [ownerOk, vaultOk, sysAcc] [] 2 (by decide) (by decide)

/-- C8 counterexample: the Deposit path does not verify the account supplied
in the system-transfer-authority position: a deposit whose third account is
not the genuine authority still validates. -/
theorem deposit_authority_unchecked_cex :
    bogusSys.key ≠ systemProgramID ∧
    DepositAccounts.tryFrom fpa0 [ownerOk, vaultOk, bogusSys] = .ok ⟨ownerOk, vaultOk⟩ :=
  ⟨by decide, rfl⟩

/-- C8 amended: neither the Deposit path nor the Withdraw path verifies the
account supplied in the system-transfer-authority position; both ignore it
entirely, so validation is invariant under replacing that account. -/
theorem authority_position_ignored (fpa : Fpa) (owner vault x y : AccountInfo) :
    DepositAccounts.tryFrom fpa [owner, vault, x]
      = DepositAccounts.tryFrom fpa [owner, vault, y] ∧
    WithdrawAccounts.tryFrom fpa [owner, vault, x]
      = WithdrawAccounts.tryFrom fpa [owner, vault, y] :=
  ⟨rfl, rfl⟩

/-- C9: For both operations, account validation fails with the
not-enough-account-keys error whenever the account list does not have
exactly three entries, whatever the accounts contain, so a four-account
request is rejected exactly like a two-account one. -/
theorem exactly_three_accounts (fpa : Fpa) (accounts : List AccountInfo)
    (h : accounts.length ≠ 3) :
    DepositAccounts.tryFrom fpa accounts = .error .notEnoughAccountKeys ∧
    WithdrawAccounts.tryFrom fpa accounts = .error .notEnoughAccountKeys := by
  rcases accounts with _ | ⟨o, _ | ⟨v, _ | ⟨t, _ | ⟨e, rest⟩⟩⟩⟩ <;>
    first
      | exact absurd rfl h
      | exact ⟨rfl, rfl⟩

/-- Evaluates C9 at a concrete four-account request. -/
theorem exactly_three_accounts_witness :
    DepositAccounts.tryFrom fpa0 [ownerOk, vaultOk, sysAcc, sysAcc]
      = .error .notEnoughAccountKeys ∧
    WithdrawAccounts.tryFrom fpa0 [ownerOk, vaultOk, sysAcc, sysAcc]
      = .error .notEnoughAccountKeys :=
  exactly_three_accounts fpa0 [ownerOk, vaultOk, sysAcc, sysAcc] (by decide)

/-- C10: Two Withdraw requests that agree on the account list and differ
only in the payload bytes after the opcode produce identical results: the
Withdraw path never reads the payload. -/
theorem withdraw_ignores_payload (fpa : Fpa) (accounts : List AccountInfo)
    (d1 d2 : List Nat) :
    process_instruction fpa accounts (1 :: d1) = process_instruction fpa accounts (1 :: d2) :=
  rfl

end PinocchioVault
